import Mathlib

/-!
Verification of the NEXY networking dashboard's session-synchronizer and
role-based authorization policy.

The definitions below are a shallow embedding of the TypeScript source:

* `src/src/components/auth/AuthGuard.tsx` — `syncUserWithDatabase` and the
  `onAuthStateChange` handler (session reconciliation, JWT refresh retry,
  fallback user, snake_case → camelCase translation);
* the `Header` component — the inline `isAdmin` check;
* the `AdminPanel` component — the admin-panel access gate and the
  privilege-change control condition;
* the `ProfileManagement` component — `handleSave` (profile-edit update
  payload and local user callback).

JavaScript short-circuit defaulting with `||` (where `undefined` and the
empty string are falsy) is modelled by `jsOrStr`; `String.prototype.includes`
by `jsIncludes`.  The asynchronous environment (results of successive
storage and refresh calls) is passed explicitly as lists of outcomes; a
reconciliation whose next storage outcome is not determined by the supplied
trace returns `none`.
-/

namespace Nexy

/-- application-level `User` record (`src/unnamed/part_006`, `interface User`);
`role` and `userType` are kept as strings because every check in the source
is a string comparison. -/
structure User where
  id : String
  email : String
  fullName : String
  role : String
  bio : Option String := none
  location : Option String := none
  interests : Option String := none
  linkedinUrl : Option String := none
  twitterUrl : Option String := none
  websiteUrl : Option String := none
  avatarUrl : Option String := none
  userType : String
  createdAt : String
  updatedAt : Option String := none
deriving DecidableEq

/-- row of the `users` table in the store's snake_case naming, as read back by
`select('*')` in `AuthGuard.tsx`. -/
structure DbUser where
  id : String
  auth_user_id : String
  email : String
  full_name : String
  role : String
  bio : Option String := none
  location : Option String := none
  interests : Option String := none
  linkedin_url : Option String := none
  twitter_url : Option String := none
  website_url : Option String := none
  avatar_url : Option String := none
  user_type : String
  created_at : String
  updated_at : Option String := none
deriving DecidableEq

/-- identity-provider subject as delivered to `syncUserWithDatabase`
(`authUser`): subject id, optional email, optional
`user_metadata.full_name`. -/
structure IdentityUser where
  id : String
  email : Option String := none
  metaFullName : Option String := none
deriving DecidableEq

/-- identity-provider session as observed by the auth-state listener; only
`session.user` is inspected by the embedded control flow. -/
structure Session where
  user : Option IdentityUser := none
deriving DecidableEq

/-- JavaScript `a || b` on an optional string: `undefined` and `""` are
falsy, so they select the default. -/
def jsOrStr (o : Option String) (d : String) : String :=
  match o with
  | none => d
  | some s => if s == "" then d else s

/-- occurrence test on character lists: `pat` occurs contiguously in the
second argument. -/
def containsSub (pat : List Char) : List Char → Bool
  | [] => pat.isEmpty
  | c :: cs => pat.isPrefixOf (c :: cs) || containsSub pat cs

/-- JavaScript `m.includes(pat)`: true when `pat` occurs in `m`. -/
def jsIncludes (m pat : String) : Bool :=
  containsSub pat.data m.data

/-- storage error as returned by the store client (`fetchError` /
`createError`): a code and an optional message. -/
structure StoreError where
  code : String
  message : Option String := none
deriving DecidableEq

/-- condition of `AuthGuard.tsx` line 33:
`fetchError.code === 'PGRST301' || fetchError.message?.includes('JWT')`. -/
def StoreError.isClaims (e : StoreError) : Bool :=
  e.code == "PGRST301" ||
    (match e.message with
     | some m => jsIncludes m "JWT"
     | none => false)

/-- inline check of the `Header` component, line 100:
`user?.userType === 'admin' || user?.userType === 'super_admin'`; optional
chaining makes both comparisons false when the user is absent. -/
def isAdmin (u : Option User) : Bool :=
  match u with
  | none => false
  | some v => v.userType == "admin" || v.userType == "super_admin"

/-- first conjunct of the privilege-change control condition, `AdminPanel`
line 324: `currentUser.userType === 'super_admin'`. -/
def isSuperAdmin (u : User) : Bool :=
  u.userType == "super_admin"

/-- lifting of `isSuperAdmin` through JavaScript optional chaining
(`user?.userType === 'super_admin'`), matching the spec's §4.2 predicate on a
possibly-absent user: an absent user is never a super admin. -/
def isSuperAdminOpt (u : Option User) : Bool :=
  match u with
  | none => false
  | some v => isSuperAdmin v

/-- privilege-change control condition, `AdminPanel` line 324:
`currentUser.userType === 'super_admin' && user.id !== currentUser.id`
(`actor` is `currentUser`, `target` is the listed `user`). -/
def canChangePrivilege (actor target : User) : Bool :=
  actor.userType == "super_admin" && target.id != actor.id

/-- admin-panel access gate, `AdminPanel` line 153: the access-denied branch
is taken when
`currentUser.userType !== 'admin' && currentUser.userType !== 'super_admin'`;
the panel is shown exactly when that condition is false. -/
def canViewAdminPanel (u : User) : Bool :=
  !(u.userType != "admin" && u.userType != "super_admin")

/-- characters before the first `'@'` (the whole list when there is none). -/
def beforeAt : List Char → List Char
  | [] => []
  | c :: cs => if c = '@' then [] else c :: beforeAt cs

/-- local part of an email address, `email.split('@')[0]`: the substring
before the first `'@'`, or the whole string when no `'@'` occurs. -/
def localPart (e : String) : String :=
  String.mk (beforeAt e.data)

/-- defaulted full name used both at creation and for the fallback user,
`AuthGuard.tsx` lines 53 and 95:
`authUser.user_metadata?.full_name || authUser.email?.split('@')[0] || 'User'`. -/
def defaultFullName (au : IdentityUser) : String :=
  jsOrStr au.metaFullName (jsOrStr (au.email.map localPart) "User")

/-- snake_case → camelCase translation of a store row into the application
`User`, `AuthGuard.tsx` lines 71–86. -/
def transformUser (d : DbUser) : User :=
  { id := d.id
    email := d.email
    fullName := d.full_name
    role := d.role
    bio := d.bio
    location := d.location
    interests := d.interests
    linkedinUrl := d.linkedin_url
    twitterUrl := d.twitter_url
    websiteUrl := d.website_url
    avatarUrl := d.avatar_url
    userType := d.user_type
    createdAt := d.created_at
    updatedAt := d.updated_at }

/-- synthetic fallback user published when reconciliation fails,
`AuthGuard.tsx` lines 92–99; `now` stands for `new Date().toISOString()`. -/
def fallbackUser (au : IdentityUser) (now : String) : User :=
  { id := au.id
    email := jsOrStr au.email ""
    fullName := defaultFullName au
    role := "Talent"
    userType := "user"
    createdAt := now }

/-- row inserted for a new subject, `AuthGuard.tsx` lines 50–57, as returned
by `.select().single()`: the store assigns the fresh `newId`. -/
def insertedRow (au : IdentityUser) (now newId : String) : DbUser :=
  { id := newId
    auth_user_id := au.id
    email := jsOrStr au.email ""
    full_name := defaultFullName au
    role := "Talent"
    user_type := "user"
    created_at := now
    updated_at := some now }

/-- outcome of one storage lookup attempt (`.from('users').select('*')…`):
either a row list (`data`) or an error (`fetchError`). -/
inductive FetchResult where
  | rows (rs : List DbUser)
  | fail (e : StoreError)
deriving DecidableEq

/-- outcome of the single `insert … .select().single()` call that a
terminating reconciliation performs at most once. -/
inductive CreateResult where
  | ok (d : DbUser)
  | fail (e : StoreError)
deriving DecidableEq

/-- observable result of one terminating run of `syncUserWithDatabase`: the
published user, the final loading flag (`finally { setLoading(false) }`),
and counters of refresh attempts, lookup calls and insert calls. -/
structure SyncStats where
  user : User
  loading : Bool
  refreshes : Nat
  fetchCalls : Nat
  createCalls : Nat
  usedFallback : Bool
deriving DecidableEq

/-- recursive body of `syncUserWithDatabase` (`AuthGuard.tsx` lines 16–105)
over an explicit environment trace: `fs` lists the outcomes of successive
lookup calls, `rs` the outcomes of successive `refreshSession` calls
(`true` = a refreshed session was returned without error), `cr` the outcome
of the insert if one happens.  On a lookup error whose
`code`/`message` matches the JWT condition, the code refreshes and — when
the refresh succeeds — re-enters itself with the refreshed session
(line 38); a failed refresh or a non-claims error throws into the catch
block, which publishes the fallback user.  `n`/`k` accumulate refresh and
lookup counts.  `none` means the trace ends before the run does. -/
def syncAux (au : IdentityUser) (now : String) (cr : CreateResult) :
    List FetchResult → List Bool → Nat → Nat → Option SyncStats
  | [], _, _, _ => none
  | FetchResult.fail e :: fs, rs, n, k =>
    if e.isClaims then
      match rs with
      | [] => none
      | b :: rs2 =>
        if b then
          syncAux au now cr fs rs2 (n + 1) (k + 1)
        else
          some { user := fallbackUser au now, loading := false,
                 refreshes := n + 1, fetchCalls := k + 1, createCalls := 0,
                 usedFallback := true }
    else
      some { user := fallbackUser au now, loading := false,
             refreshes := n, fetchCalls := k + 1, createCalls := 0,
             usedFallback := true }
  | FetchResult.rows l :: _, _, n, k =>
    match l.head? with
    | some d =>
      some { user := transformUser d, loading := false,
             refreshes := n, fetchCalls := k + 1, createCalls := 0,
             usedFallback := false }
    | none =>
      match cr with
      | CreateResult.ok d =>
        some { user := transformUser d, loading := false,
               refreshes := n, fetchCalls := k + 1, createCalls := 1,
               usedFallback := false }
      | CreateResult.fail _ =>
        some { user := fallbackUser au now, loading := false,
               refreshes := n, fetchCalls := k + 1, createCalls := 1,
               usedFallback := true }

/-- entry point of the reconciliation for one established session. -/
def syncUserWithDatabase (au : IdentityUser) (now : String) (cr : CreateResult)
    (fs : List FetchResult) (rs : List Bool) : Option SyncStats :=
  syncAux au now cr fs rs 0 0

/-- auth-state-change listener, `AuthGuard.tsx` lines 135–155: `SIGNED_OUT`
publishes `{user: null, loading: false}` and returns before any storage
call; a session with a user runs the reconciliation; otherwise the null
state is published.  The result pairs the final published
`(user?, loading)` snapshot (or `none` when the reconciliation trace is
underdetermined) with the number of user-store calls performed. -/
def onAuthChange (event : String) (session : Option Session) (now : String)
    (cr : CreateResult) (fs : List FetchResult) (rs : List Bool) :
    Option (Option User × Bool) × Nat :=
  if event == "SIGNED_OUT" then
    (some (none, false), 0)
  else
    match session with
    | some s =>
      match s.user with
      | some au =>
        match syncUserWithDatabase au now cr fs rs with
        | some st => (some (some st.user, st.loading), st.fetchCalls + st.createCalls)
        | none => (none, 0)
      | none => (some (none, false), 0)
    | none => (some (none, false), 0)

/-- lookup used by the store-backed model of reconciliation:
`.eq('auth_user_id', subjectId).limit(1)` against a table state. -/
def dbFetch (db : List DbUser) (sub : String) : List DbUser :=
  (db.filter (fun r => r.auth_user_id == sub)).take 1

/-- number of rows of the table whose external-subject reference equals
`sub`. -/
def subjectCount (db : List DbUser) (sub : String) : Nat :=
  (db.filter (fun r => r.auth_user_id == sub)).length

/-- error-free, store-backed run of `syncUserWithDatabase` against a table
state: look the subject up; adopt the row when present, otherwise insert the
defaulted row (the store assigns `newId`).  Returns the published user and
the table state after the run. -/
def syncWithStore (au : IdentityUser) (now newId : String) (db : List DbUser) :
    User × List DbUser :=
  match (dbFetch db au.id).head? with
  | some d => (transformUser d, db)
  | none => (transformUser (insertedRow au now newId),
             db ++ [insertedRow au now newId])

/-- sequence of established notifications for the same subject, each with
its own timestamp/fresh-id pair, run against the store model. -/
def runEstablished (au : IdentityUser) : List (String × String) → List DbUser → List DbUser
  | [], db => db
  | (now, nid) :: ps, db => runEstablished au ps (syncWithStore au now nid db).2

/-- editable profile form state of `ProfileManagement` (`src/unnamed/part_003`
lines 34–43): every field is a plain string. -/
structure ProfileForm where
  fullName : String
  role : String
  bio : String
  location : String
  interests : String
  linkedinUrl : String
  twitterUrl : String
  websiteUrl : String
deriving DecidableEq

/-- column/value pairs of the store update issued by `handleSave`
(`src/unnamed/part_003` lines 55–68), camelCase translated to snake_case. -/
def profileUpdatePayload (f : ProfileForm) (now : String) : List (String × String) :=
  [("full_name", f.fullName), ("role", f.role), ("bio", f.bio),
   ("location", f.location), ("interests", f.interests),
   ("linkedin_url", f.linkedinUrl), ("twitter_url", f.twitterUrl),
   ("website_url", f.websiteUrl), ("updated_at", now)]

/-- locally updated user passed to `onUpdateUser` on success,
`{ ...user, ...formData, updatedAt: … }` (lines 80–84): the spread
overwrites exactly the form fields and `updatedAt`. -/
def applyProfileEdit (u : User) (f : ProfileForm) (now : String) : User :=
  { u with
    fullName := f.fullName
    role := f.role
    bio := some f.bio
    location := some f.location
    interests := some f.interests
    linkedinUrl := some f.linkedinUrl
    twitterUrl := some f.twitterUrl
    websiteUrl := some f.websiteUrl
    updatedAt := some now }

/-- outcome of the `supabase…update…eq` call inside `handleSave`: success,
an error result, or a thrown exception caught by the surrounding catch. -/
inductive UpdateOutcome where
  | ok
  | storeError (e : StoreError)
  | thrown
deriving DecidableEq

/-- observable result of `handleSave` (`src/unnamed/part_003` lines 50–103):
whether a destructive error toast was shown, and the value passed to
`onUpdateUser` (`none` when the callback was not invoked). -/
structure SaveResult where
  reported : Bool
  updated : Option User
deriving DecidableEq

/-- `handleSave`: on an update error it reports and returns before invoking
`onUpdateUser`; on a thrown exception the catch block does the same; on
success it passes the locally merged user to `onUpdateUser`. -/
def handleSave (u : User) (f : ProfileForm) (now : String) :
    UpdateOutcome → SaveResult
  | UpdateOutcome.ok => { reported := false, updated := some (applyProfileEdit u f now) }
  | UpdateOutcome.storeError _ => { reported := true, updated := none }
  | UpdateOutcome.thrown => { reported := true, updated := none }

/-- published `currentUser` of the `App` component after a save: unchanged
unless `handleSave` invoked `onUpdateUser` (`handleUpdateUser` in
`src/unnamed/part_001`). -/
def publishAfterSave (prev : Option User) (r : SaveResult) : Option User :=
  match r.updated with
  | none => prev
  | some u => some u

/-- sample super-admin user for concrete instantiations. -/
def superUser : User :=
  { id := "u-super", email := "s@x.com", fullName := "S", role := "Founder",
    userType := "super_admin", createdAt := "t0" }

/-- sample plain user for concrete instantiations. -/
def plainUser : User :=
  { id := "u-plain", email := "p@x.com", fullName := "P", role := "Talent",
    userType := "user", createdAt := "t1" }

/-- sample user with a malformed `userType` outside the enumerated set. -/
def weirdUser : User :=
  { id := "u-weird", email := "w@x.com", fullName := "W", role := "Talent",
    userType := "banana", createdAt := "t2" }

/-- sample identity-provider subject for concrete instantiations. -/
def sampleAuth : IdentityUser :=
  { id := "sub-1", email := some "a@x.com" }

/-- sample stored row for the subject `sub-1`. -/
def sampleRow : DbUser :=
  { id := "row-1", auth_user_id := "sub-1", email := "a@x.com", full_name := "A",
    role := "Talent", user_type := "user", created_at := "t0",
    updated_at := some "t0" }

/-- sample claims (JWT) storage error. -/
def jwtError : StoreError :=
  { code := "PGRST301", message := some "JWT expired" }

/-- sample non-claims storage error. -/
def permError : StoreError :=
  { code := "42501", message := some "permission denied" }

/-- C4: `canChangePrivilege(actor, target)` is true exactly when the actor is
a super admin and the two ids differ; in particular it is false whenever
actor and target coincide, even for a super admin. -/
theorem canChangePrivilegeSpec :
    (∀ a t : User,
      (canChangePrivilege a t = true ↔ (isSuperAdmin a = true ∧ a.id ≠ t.id))) ∧
    (∀ a : User, canChangePrivilege a a = false) := by
  constructor
  · intro a t
    simp only [canChangePrivilege, isSuperAdmin, Bool.and_eq_true, bne_iff_ne]
    exact and_congr_right fun _ => ne_comm
  · intro a
    simp [canChangePrivilege]

/-- concrete instance of `canChangePrivilegeSpec`: a super admin may change
another user's privilege but never their own. -/
theorem canChangePrivilegeSpecWitness :
    canChangePrivilege superUser plainUser = true ∧
    canChangePrivilege superUser superUser = false :=
  ⟨(canChangePrivilegeSpec.1 superUser plainUser).mpr ⟨by decide, by decide⟩,
   canChangePrivilegeSpec.2 superUser⟩

/-- C7: for an absent user and for any user whose `userType` lies outside the
enumerated set, every authorization predicate evaluates to `false` (the
predicates are total Lean functions, so they cannot throw). -/
theorem authPredicatesLeastPrivilege :
    ∀ u t : User,
      u.userType ∉ (["user", "admin", "super_admin"] : List String) →
      isAdmin none = false ∧ isAdmin (some u) = false ∧
      isSuperAdmin u = false ∧ isSuperAdminOpt none = false ∧
      canChangePrivilege u t = false ∧ canViewAdminPanel u = false := by
  intro u t h
  simp only [List.mem_cons, List.not_mem_nil, or_false, not_or] at h
  obtain ⟨h1, h2, h3⟩ := h
  refine ⟨rfl, ?_, ?_, rfl, ?_, ?_⟩
  · simp [isAdmin, h2, h3]
  · simp [isSuperAdmin, h3]
  · simp [canChangePrivilege, h3]
  · simp [canViewAdminPanel, h2, h3]

/-- concrete instance of `authPredicatesLeastPrivilege` at the malformed
`userType` value `"banana"`. -/
theorem authPredicatesLeastPrivilegeWitness :
    isAdmin (some weirdUser) = false ∧ isSuperAdmin weirdUser = false ∧
    canChangePrivilege weirdUser plainUser = false ∧
    canViewAdminPanel weirdUser = false := by
  have h := authPredicatesLeastPrivilege weirdUser plainUser (by decide)
  exact ⟨h.2.1, h.2.2.1, h.2.2.2.2.1, h.2.2.2.2.2⟩

/-- C9: every super admin (and no absent user) satisfies the admin-or-above
predicate that gates navigation and the admin panel. -/
theorem superAdminImpliesAdmin :
    ∀ u : Option User, isSuperAdminOpt u = true → isAdmin u = true := by
  intro u h
  cases u with
  | none => simp [isSuperAdminOpt] at h
  | some v =>
    simp only [isSuperAdminOpt, isSuperAdmin, beq_iff_eq] at h
    simp [isAdmin, h]

/-- concrete instance of `superAdminImpliesAdmin` at a super-admin user. -/
theorem superAdminImpliesAdminWitness :
    isAdmin (some superUser) = true :=
  superAdminImpliesAdmin (some superUser) (by decide)

/-- C6: a `SIGNED_OUT` notification makes the listener publish
`{user: null, loading: false}` with zero user-store calls, whatever the
session and whatever storage behavior the environment would have supplied. -/
theorem signedOutPublishesNullNoStoreCalls :
    ∀ (session : Option Session) (now : String) (cr : CreateResult)
      (fs : List FetchResult) (rs : List Bool),
      onAuthChange "SIGNED_OUT" session now cr fs rs = (some (none, false), 0) := by
  intro session now cr fs rs
  rfl

/-- C8: when the profile-edit store update fails (error result or thrown
exception), `handleSave` reports the failure and does not invoke
`onUpdateUser`, so the previously published user state is unchanged. -/
theorem profileSaveFailureLeavesStateUnchanged :
    ∀ (u : User) (f : ProfileForm) (now : String) (e : StoreError)
      (prev : Option User),
      handleSave u f now (UpdateOutcome.storeError e) =
        { reported := true, updated := none } ∧
      handleSave u f now UpdateOutcome.thrown =
        { reported := true, updated := none } ∧
      publishAfterSave prev (handleSave u f now (UpdateOutcome.storeError e)) = prev ∧
      publishAfterSave prev (handleSave u f now UpdateOutcome.thrown) = prev := by
  intro u f now e prev
  exact ⟨rfl, rfl, rfl, rfl⟩

/-- C10: a profile-edit save touches only the nine profile columns in the
store payload and leaves `id`, `email`, `userType`, `createdAt` (and
`avatarUrl`) of the locally published user unchanged. -/
theorem profileEditFrame :
    ∀ (u : User) (f : ProfileForm) (now : String),
      (applyProfileEdit u f now).id = u.id ∧
      (applyProfileEdit u f now).email = u.email ∧
      (applyProfileEdit u f now).userType = u.userType ∧
      (applyProfileEdit u f now).createdAt = u.createdAt ∧
      (applyProfileEdit u f now).avatarUrl = u.avatarUrl ∧
      (profileUpdatePayload f now).map Prod.fst =
        ["full_name", "role", "bio", "location", "interests",
         "linkedin_url", "twitter_url", "website_url", "updated_at"] ∧
      "id" ∉ (profileUpdatePayload f now).map Prod.fst ∧
      "email" ∉ (profileUpdatePayload f now).map Prod.fst ∧
      "user_type" ∉ (profileUpdatePayload f now).map Prod.fst ∧
      "created_at" ∉ (profileUpdatePayload f now).map Prod.fst := by
  intro u f now
  refine ⟨rfl, rfl, rfl, rfl, rfl, rfl, ?_, ?_, ?_, ?_⟩
  all_goals simp [profileUpdatePayload]

/-- C1 counterexample: with a trace in which the lookup fails with a claims
error twice and both refreshes succeed, the reconciliation performs two
refreshes before adopting the looked-up row — refuting, at this concrete
input, that at most one session refresh is ever attempted. -/
theorem syncRefreshNotBoundedByOne :
    ¬ (∀ st : SyncStats,
        syncUserWithDatabase sampleAuth "t0" (CreateResult.ok sampleRow)
            [FetchResult.fail jwtError, FetchResult.fail jwtError,
             FetchResult.rows [sampleRow]]
            [true, true] = some st →
        st.refreshes ≤ 1) := by
  intro h
  have h2 := h
    { user := transformUser sampleRow, loading := false, refreshes := 2,
      fetchCalls := 3, createCalls := 0, usedFallback := false }
    (by decide)
  exact absurd h2 (by decide)

/-- C1 (amended): each claims-failing lookup attempt with a successful
refresh performs exactly one refresh and re-enters the lookup/create steps
with the refreshed session; when the retried lookup then succeeds, the run
terminates with exactly one refresh overall and publishes the post-refresh
lookup result.  The refresh count is one per claims-failing attempt, not one
per notification. -/
theorem syncSingleRefreshRetry :
    (∀ (au : IdentityUser) (now : String) (cr : CreateResult) (e : StoreError)
       (fs : List FetchResult) (rs : List Bool) (n k : Nat),
       e.isClaims = true →
       syncAux au now cr (FetchResult.fail e :: fs) (true :: rs) n k =
         syncAux au now cr fs rs (n + 1) (k + 1)) ∧
    (∀ (au : IdentityUser) (now : String) (cr : CreateResult) (e : StoreError)
       (d : DbUser) (l : List DbUser),
       e.isClaims = true →
       syncUserWithDatabase au now cr
           [FetchResult.fail e, FetchResult.rows (d :: l)] [true] =
         some { user := transformUser d, loading := false, refreshes := 1,
                fetchCalls := 2, createCalls := 0, usedFallback := false }) := by
  constructor
  · intro au now cr e fs rs n k h
    simp [syncAux, h]
  · intro au now cr e d l h
    simp [syncUserWithDatabase, syncAux, h]

/-- concrete instance of `syncSingleRefreshRetry`: one claims failure, one
successful refresh, then a successful lookup — exactly one refresh, and the
published user is the post-refresh lookup result. -/
theorem syncSingleRefreshRetryWitness :
    syncUserWithDatabase sampleAuth "t0" (CreateResult.ok sampleRow)
        [FetchResult.fail jwtError, FetchResult.rows [sampleRow]] [true] =
      some { user := transformUser sampleRow, loading := false, refreshes := 1,
             fetchCalls := 2, createCalls := 0, usedFallback := false } :=
  syncSingleRefreshRetry.2 sampleAuth "t0" (CreateResult.ok sampleRow)
    jwtError sampleRow [] (by decide)

/-- C2: every unrecoverable failure — a non-claims lookup error, a claims
error whose refresh fails, or a failing create — makes the run publish the
synthetic fallback user built from the identity session, with
`role = "Talent"`, `userType = "user"` and `loading = false`. -/
theorem syncUnrecoverableFallback :
    ∀ (au : IdentityUser) (now : String) (cr : CreateResult) (e : StoreError)
      (fs : List FetchResult) (rs : List Bool) (n k : Nat),
      (e.isClaims = false →
        syncAux au now cr (FetchResult.fail e :: fs) rs n k =
          some { user := fallbackUser au now, loading := false, refreshes := n,
                 fetchCalls := k + 1, createCalls := 0, usedFallback := true }) ∧
      (e.isClaims = true →
        syncAux au now cr (FetchResult.fail e :: fs) (false :: rs) n k =
          some { user := fallbackUser au now, loading := false,
                 refreshes := n + 1, fetchCalls := k + 1, createCalls := 0,
                 usedFallback := true }) ∧
      (∀ e2 : StoreError,
        syncAux au now (CreateResult.fail e2) (FetchResult.rows [] :: fs) rs n k =
          some { user := fallbackUser au now, loading := false, refreshes := n,
                 fetchCalls := k + 1, createCalls := 1, usedFallback := true }) ∧
      (fallbackUser au now).role = "Talent" ∧
      (fallbackUser au now).userType = "user" := by
  intro au now cr e fs rs n k
  refine ⟨?_, ?_, ?_, rfl, rfl⟩
  · intro h
    simp [syncAux, h]
  · intro h
    simp [syncAux, h]
  · intro e2
    simp [syncAux]

/-- concrete instance of `syncUnrecoverableFallback`: a non-claims lookup
error on the first attempt publishes the fallback user immediately. -/
theorem syncUnrecoverableFallbackWitness :
    syncUserWithDatabase sampleAuth "t0" (CreateResult.ok sampleRow)
        [FetchResult.fail permError] [] =
      some { user := fallbackUser sampleAuth "t0", loading := false,
             refreshes := 0, fetchCalls := 1, createCalls := 0,
             usedFallback := true } ∧
    (fallbackUser sampleAuth "t0").role = "Talent" ∧
    (fallbackUser sampleAuth "t0").userType = "user" :=
  have h := syncUnrecoverableFallback sampleAuth "t0" (CreateResult.ok sampleRow)
    permError [] [] 0 0
  ⟨h.1 (by decide), h.2.2.2.1, h.2.2.2.2⟩

/-- C5: the created user's full name is the session display name when it is
present and non-empty, else the local part of the email when that is
non-empty, else the literal `"User"`; with email `a@x.com` and no display
name the user created by an established notification has full name `"a"`. -/
theorem createdFullNameDefaulting :
    (∀ (au : IdentityUser) (n : String),
       au.metaFullName = some n → n ≠ "" → defaultFullName au = n) ∧
    (∀ (au : IdentityUser) (e : String),
       au.metaFullName = none → au.email = some e → localPart e ≠ "" →
       defaultFullName au = localPart e) ∧
    (∀ au : IdentityUser,
       au.metaFullName = none → au.email = none → defaultFullName au = "User") ∧
    (∀ sub now nid : String,
       (syncWithStore { id := sub, email := some "a@x.com" } now nid []).1.fullName
         = "a") := by
  refine ⟨?_, ?_, ?_, ?_⟩
  · intro au n hm hne
    simp [defaultFullName, jsOrStr, hm, hne]
  · intro au e hm he hne
    simp [defaultFullName, jsOrStr, hm, he, hne]
  · intro au hm he
    simp [defaultFullName, jsOrStr, hm, he]
  · intro sub now nid
    rfl

/-- concrete instance of `createdFullNameDefaulting`: a present display name
wins, and the spec's `a@x.com` scenario creates full name `"a"`. -/
theorem createdFullNameDefaultingWitness :
    defaultFullName { id := "s", email := some "a@x.com", metaFullName := some "Bob" }
      = "Bob" ∧
    (syncWithStore { id := "sub-9", email := some "a@x.com" } "t0" "row-9" []).1.fullName
      = "a" :=
  ⟨createdFullNameDefaulting.1
      { id := "s", email := some "a@x.com", metaFullName := some "Bob" }
      "Bob" rfl (by decide),
   createdFullNameDefaulting.2.2.2 "sub-9" "t0" "row-9"⟩

/-- helper: a zero subject count means the filtered row list is empty. -/
theorem subjectCount_eq_zero_filter {db : List DbUser} {sub : String}
    (h : subjectCount db sub = 0) :
    db.filter (fun r => r.auth_user_id == sub) = [] := by
  simpa [subjectCount, List.length_eq_zero] using h

/-- helper: when no row matches the subject, reconciliation inserts the
defaulted row and publishes its translation. -/
theorem syncWithStore_creates {au : IdentityUser} {db : List DbUser}
    (h : subjectCount db au.id = 0) (now nid : String) :
    syncWithStore au now nid db =
      (transformUser (insertedRow au now nid), db ++ [insertedRow au now nid]) := by
  have hf := subjectCount_eq_zero_filter h
  simp [syncWithStore, dbFetch, hf]

/-- helper: appending the inserted row raises the subject count by one. -/
theorem subjectCount_append_inserted (au : IdentityUser) (db : List DbUser)
    (now nid : String) :
    subjectCount (db ++ [insertedRow au now nid]) au.id =
      subjectCount db au.id + 1 := by
  simp [subjectCount, List.filter_append, insertedRow]

/-- helper: when exactly one row matches the subject, reconciliation adopts
it and leaves the table unchanged. -/
theorem syncWithStore_found {au : IdentityUser} {db : List DbUser}
    (h : subjectCount db au.id = 1) (now nid : String) :
    (syncWithStore au now nid db).2 = db := by
  obtain ⟨r, hr⟩ := List.length_eq_one.mp (by simpa [subjectCount] using h)
  simp [syncWithStore, dbFetch, hr]

/-- helper: a second reconciliation against the table produced by the first
finds the inserted row and changes nothing. -/
theorem syncWithStore_second {au : IdentityUser} {db : List DbUser}
    (h : db.filter (fun r => r.auth_user_id == au.id) = [])
    (now1 nid1 now2 nid2 : String) :
    syncWithStore au now2 nid2 (db ++ [insertedRow au now1 nid1]) =
      (transformUser (insertedRow au now1 nid1), db ++ [insertedRow au now1 nid1]) := by
  simp [syncWithStore, dbFetch, List.filter_append, h, insertedRow]

/-- helper: a subject count of one is preserved by any further sequence of
established notifications. -/
theorem runEstablished_preserves_one (au : IdentityUser) :
    ∀ (ps : List (String × String)) (db : List DbUser),
      subjectCount db au.id = 1 →
      subjectCount (runEstablished au ps db) au.id = 1 := by
  intro ps
  induction ps with
  | nil =>
    intro db h
    simpa [runEstablished] using h
  | cons p ps ih =>
    intro db h
    obtain ⟨now, nid⟩ := p
    simp only [runEstablished]
    rw [syncWithStore_found h]
    exact ih db h

/-- C3: starting from a store with no record for the subject, the first
established notification creates exactly one record, a second notification
adopts that record without creating a duplicate, and any further sequence of
notifications keeps the subject count at exactly one. -/
theorem establishedIdempotentCreate :
    ∀ (au : IdentityUser) (now1 nid1 now2 nid2 : String) (db : List DbUser),
      subjectCount db au.id = 0 →
      subjectCount (syncWithStore au now1 nid1 db).2 au.id = 1 ∧
      (syncWithStore au now2 nid2 (syncWithStore au now1 nid1 db).2).2 =
        (syncWithStore au now1 nid1 db).2 ∧
      (syncWithStore au now2 nid2 (syncWithStore au now1 nid1 db).2).1 =
        transformUser (insertedRow au now1 nid1) ∧
      (∀ ps : List (String × String),
        subjectCount (runEstablished au ps (syncWithStore au now1 nid1 db).2) au.id
          = 1) := by
  intro au now1 nid1 now2 nid2 db h0
  have hfilter := subjectCount_eq_zero_filter h0
  have hc := syncWithStore_creates h0 now1 nid1
  have h2 := syncWithStore_second hfilter now1 nid1 now2 nid2
  have h1 : subjectCount (syncWithStore au now1 nid1 db).2 au.id = 1 := by
    rw [hc]
    simp [subjectCount_append_inserted, h0]
  refine ⟨h1, ?_, ?_, ?_⟩
  · rw [hc]
    simp [h2]
  · rw [hc]
    simp [h2]
  · intro ps
    exact runEstablished_preserves_one au ps _ h1

/-- concrete instance of `establishedIdempotentCreate`: two established
notifications for a fresh subject leave exactly one stored record. -/
theorem establishedIdempotentCreateWitness :
    subjectCount (syncWithStore sampleAuth "t1" "id1" []).2 sampleAuth.id = 1 ∧
    (syncWithStore sampleAuth "t2" "id2" (syncWithStore sampleAuth "t1" "id1" []).2).2 =
      (syncWithStore sampleAuth "t1" "id1" []).2 :=
  have h := establishedIdempotentCreate sampleAuth "t1" "id1" "t2" "id2" [] (by decide)
  ⟨h.1, h.2.1⟩

end Nexy
